import Mathlib

/-!
Verification of the CRM order/customer workflows of this repository
(`crm/models.py`, `crm/schema.py`) against its natural-language specification.

Shallow embedding conventions:
* The relational store is a record of four tables (lists of rows), one per
  Django model.  `Customer.objects.create` etc. become explicit store passing.
* `DecimalField(decimal_places=2)` amounts are modelled in integer cents
  (every stored amount is an exact multiple of 0.01, and the only arithmetic
  performed on amounts is addition, which is exact in cents).
* Opaque uuid4 identities are modelled as freshly assigned naturals; no claim
  depends on the value of an id.
* Fallible mutations return `Except String α` together with the store that is
  durably committed when the mutation returns.  Where Django runs in autocommit
  mode (no `transaction.atomic` around the mutation) every ORM write commits
  immediately; inside `@transaction.atomic` writes go to the working store of
  the open transaction and become durable only when the decorated function
  returns.
* Python strings are `List Char` / `String`; the `\d` and `\s` character
  classes of the phone regex are modelled by their ASCII readings.
-/

/-- An amount of money in cents: the exact value of a
`DecimalField(max_digits=10, decimal_places=2)` column times 100. -/
abbrev Money := Int

/-- Row of the `Customer` model (`crm/models.py` lines 14-22): uuid id
(modelled as an opaque `Nat`), name, unique email, optional phone. -/
structure Customer where
  id : Nat
  name : String
  email : String
  phone : Option String
deriving DecidableEq

/-- Row of the `Product` model (`crm/models.py` lines 24-39): id, name,
price (cents), non-negative stock. -/
structure Product where
  id : Nat
  name : String
  price : Money
  stock : Nat
deriving DecidableEq

/-- Row of the `Order` model (`crm/models.py` lines 41-50): id, customer
foreign key, order date (modelled as an abstract timestamp `Nat`), total
amount in cents. -/
structure Order where
  id : Nat
  customer : Nat
  order_date : Nat
  total_amount : Money
deriving DecidableEq

/-- Row of the `OrderItem` model (`crm/models.py` lines 52-66): order and
product foreign keys, quantity, and `price_at_order`, a stored decimal
snapshot (not a reference to the product row). -/
structure OrderItem where
  order : Nat
  product : Nat
  quantity : Nat
  price_at_order : Money
deriving DecidableEq

/-- The relational store: one table per model. -/
structure Store where
  customers : List Customer
  products : List Product
  orders : List Order
  orderItems : List OrderItem
deriving DecidableEq

/-- The store with all four tables empty. -/
def emptyStore : Store := ⟨[], [], [], []⟩

/-! ## Phone validation

`crm/schema.py` lines 89 and 129 validate a phone number with
`re.match` on the pattern `^\+?\d{1,4}[-.\s]?\d{1,4}[-.\s]?\d{1,9}$`.
The language of that pattern: an optional `+`, a group of 1-4 digits, an
optional single separator (`-`, `.` or whitespace), a group of 1-4 digits,
an optional single separator, a group of 1-9 digits — and, because a final
`$` in Python also matches just before a newline that ends the string, an
optional single trailing `'\n'`.  `\d` and `\s` are modelled by their ASCII
readings. -/

/-- ASCII reading of the regex class `\d`. -/
def isPyDigit (c : Char) : Bool := c.isDigit

/-- ASCII reading of the regex class `\s`. -/
def isPySpace (c : Char) : Bool :=
  c == ' ' || c == '\t' || c == '\n' || c == '\r' || c == '\x0b' || c == '\x0c'

/-- A separator admitted by the class `[-.\s]`. -/
def isSepChar (c : Char) : Bool := c == '-' || c == '.' || isPySpace c

/-- Segment shape of `\+?`: empty or a single `+`. -/
def plusSeg : List Char → Bool
  | [] => true
  | [c] => c == '+'
  | _ => false

/-- Segment shape of `[-.\s]?`: empty or a single separator. -/
def sepSeg : List Char → Bool
  | [] => true
  | [c] => isSepChar c
  | _ => false

/-- Segment shape of a digit group: digits only (lengths are checked at the
use site). -/
def digitsSeg (l : List Char) : Bool := l.all isPyDigit

/-- Segment shape of what `$` may leave unconsumed at the end of the string:
nothing, or — when `nl` is set, modelling Python's end-of-line `$` — one
final newline. -/
def tailSeg (nl : Bool) : List Char → Bool
  | [] => true
  | [c] => nl && c == '\n'
  | _ => false

/-- One candidate decomposition of `l` for the phone pattern, by segment
lengths `a` (plus sign), `d1 s1 d2 s2 d3` (digit groups and separators):
true iff cutting `l` at those lengths yields segments of the required
shapes with nothing else left over. -/
def splitCheck (nl : Bool) (l : List Char) (a d1 s1 d2 s2 d3 : Nat) : Bool :=
  let p := l.take a
  let r1 := l.drop a
  let g1 := r1.take d1
  let r2 := r1.drop d1
  let x1 := r2.take s1
  let r3 := r2.drop s1
  let g2 := r3.take d2
  let r4 := r3.drop d2
  let x2 := r4.take s2
  let r5 := r4.drop s2
  let g3 := r5.take d3
  let t := r5.drop d3
  p.length == a && g1.length == d1 && x1.length == s1 && g2.length == d2 &&
    x2.length == s2 && g3.length == d3 &&
    plusSeg p && digitsSeg g1 && sepSeg x1 && digitsSeg g2 && sepSeg x2 &&
    digitsSeg g3 && tailSeg nl t

/-- Executable model of
`re.match(r'^\+?\d{1,4}[-.\s]?\d{1,4}[-.\s]?\d{1,9}$', l)` succeeding:
a backtracking regex engine finds a match iff some decomposition of `l`
into the pattern's segments exists, so we search all segment lengths
(`\+?` contributes 0-1 characters, the digit groups 1-4, 1-4 and 1-9, the
separators 0-1).  `nl := true` gives Python's `$` (which also matches before
one final newline); `nl := false` is the strict end-of-string variant. -/
def phoneRegexMatch (nl : Bool) (l : List Char) : Bool :=
  (List.range 2).any fun a =>
  (List.range 4).any fun i1 =>
  (List.range 2).any fun s1 =>
  (List.range 4).any fun i2 =>
  (List.range 2).any fun s2 =>
  (List.range 9).any fun i3 =>
    splitCheck nl l a (i1 + 1) s1 (i2 + 1) s2 (i3 + 1)

/-- The phone acceptance test of `CreateCustomer.mutate` (`crm/schema.py`
line 89) and `BulkCreateCustomers.mutate` (line 129):
`input.phone and not re.match(pattern, input.phone)` raises, so a phone is
accepted iff it is absent, empty (falsy), or matched by the pattern. -/
def phoneOk (phone : Option String) : Bool :=
  match phone with
  | none => true
  | some s => s.isEmpty || phoneRegexMatch true s.data

/-- Declarative segment shape of `\+?`. -/
def SegPlus (p : List Char) : Prop := p = [] ∨ p = ['+']

/-- Declarative segment shape of `[-.\s]?`. -/
def SegSep (x : List Char) : Prop := x = [] ∨ ∃ c, isSepChar c = true ∧ x = [c]

/-- Declarative segment shape of a digit group of `lo` to `hi` digits. -/
def SegDigits (lo hi : Nat) (g : List Char) : Prop :=
  lo ≤ g.length ∧ g.length ≤ hi ∧ g.all isPyDigit = true

/-- Declarative segment shape of the residue `$` may leave: nothing, or
(when `nl` is set) one final newline. -/
def SegTail (nl : Bool) (t : List Char) : Prop :=
  t = [] ∨ (nl = true ∧ t = ['\n'])

/-- The claimed phone language, written from the specification's words
(with `nl := false`): an optional leading `+`, then digit groups of 1-4,
1-4 and 1-9 digits, each pair of adjacent groups separated by at most one
of `-`, `.` or a whitespace character.  With `nl := true` the string may
additionally end in one newline. -/
def PhoneDecomp (nl : Bool) (l : List Char) : Prop :=
  ∃ p g1 x1 g2 x2 g3 t : List Char,
    l = p ++ (g1 ++ (x1 ++ (g2 ++ (x2 ++ (g3 ++ t))))) ∧
    SegPlus p ∧ SegDigits 1 4 g1 ∧ SegSep x1 ∧ SegDigits 1 4 g2 ∧
    SegSep x2 ∧ SegDigits 1 9 g3 ∧ SegTail nl t


/-! ## Customer creation

`CreateCustomer.mutate` (`crm/schema.py` lines 87-106) and
`BulkCreateCustomers.mutate` (lines 116-147). -/

/-- The `CustomerInput` / `CustomerInputForBulk` input object
(`crm/schema.py` lines 53-62): required name and email, optional phone. -/
structure CustomerInput where
  name : String
  email : String
  phone : Option String
deriving DecidableEq

/-- The value stored for `phone=input.phone or None` (`crm/schema.py`
lines 101 and 137): an empty string is replaced by `None`. -/
def normPhone : Option String → Option String
  | none => none
  | some s => if s.isEmpty then none else some s

/-- The store query `Customer.objects.filter(email=email).exists()`
(`crm/schema.py` lines 93 and 124), run against the store the mutation
currently sees. -/
def emailExists (w : Store) (email : String) : Bool :=
  w.customers.any fun c => c.email == email

/-- The phone-format error of `CreateCustomer.mutate` (`crm/schema.py`
line 90). -/
def phoneFormatError : String :=
  "Invalid phone number format. Please use '+1234567890' or '123-456-7890'."

/-- `CreateCustomer.mutate` (`crm/schema.py` lines 87-106): validate the
phone format, then email uniqueness; on success persist the customer
(autocommit — the mutation is not inside a transaction) and return it. -/
def createCustomer (input : CustomerInput) (s : Store) :
    Except String Customer × Store :=
  if !phoneOk input.phone then
    (Except.error phoneFormatError, s)
  else if emailExists s input.email then
    (Except.error "Email address already exists.", s)
  else
    let c : Customer :=
      ⟨s.customers.length, input.name, input.email, normPhone input.phone⟩
    (Except.ok c, { s with customers := s.customers ++ [c] })

/-- One iteration of the `for customer_data in input` loop of
`BulkCreateCustomers.mutate` (`crm/schema.py` lines 121-145), acting on
the store `w` the open transaction sees: email uniqueness first
(line 124), then phone format (line 129); on success the customer row is
written and appended to the results, on failure an error string is
recorded and the record skipped. -/
def processRecord (w : Store) (r : CustomerInput) : (Customer ⊕ String) × Store :=
  if emailExists w r.email then
    (Sum.inr ( "Email '" ++ r.email ++ "' already exists."), w)
  else if !phoneOk r.phone then
    (Sum.inr ( "Phone format for '" ++ r.email ++ "' is invalid."), w)
  else
    let c : Customer := ⟨w.customers.length, r.name, r.email, normPhone r.phone⟩
    (Sum.inl c, { w with customers := w.customers ++ [c] })

/-- Execution state of `BulkCreateCustomers.mutate`: the durable store
(what a reader outside the open transaction sees), the working store of
the transaction (reads inside the block, e.g. the uniqueness check, see
its own earlier writes), and the two accumulator lists
`created_customers` and `customer_errors`. -/
structure BulkState where
  durable : Store
  working : Store
  created : List Customer
  errors : List String
deriving DecidableEq

/-- One loop iteration of `BulkCreateCustomers.mutate` on the execution
state.  The mutation body runs under `@transaction.atomic`
(`crm/schema.py` line 116), so the write of a successful record goes to
the transaction's working store and the durable store is untouched until
the decorated function returns. -/
def bulkStep (st : BulkState) (r : CustomerInput) : BulkState :=
  match processRecord st.working r with
  | (Sum.inl c, w) => { st with working := w, created := st.created ++ [c] }
  | (Sum.inr e, w) => { st with working := w, errors := st.errors ++ [e] }

/-- The full loop of `BulkCreateCustomers.mutate` from store `s` (both
durable and working stores start at the committed store). -/
def bulkRun (recs : List CustomerInput) (s : Store) : BulkState :=
  recs.foldl bulkStep ⟨s, s, [], []⟩

/-- `BulkCreateCustomers.mutate` (`crm/schema.py` lines 116-147): run the
per-record loop, then return `(customers, errors)`.  Every per-record
failure is caught inside the loop, so the mutation always returns
normally and the enclosing `@transaction.atomic` block commits its
working store — the store returned here is the durable store after the
call. -/
def bulkCreateCustomers (recs : List CustomerInput) (s : Store) :
    (List Customer × List String) × Store :=
  let st := bulkRun recs s
  ((st.created, st.errors), st.working)

/-- The durable store an outside reader sees once the first `i` records
of the batch have been evaluated (and before the mutation returns). -/
def bulkDurableAfter (recs : List CustomerInput) (s : Store) (i : Nat) : Store :=
  (bulkRun (recs.take i) s).durable

/-- The outcome of each record of the batch, in input order: `Sum.inl`
the created customer, `Sum.inr` the recorded error string. -/
def bulkOutcomes : List CustomerInput → Store → List (Customer ⊕ String)
  | [], _ => []
  | r :: rs, w =>
    match processRecord w r with
    | (o, w2) => o :: bulkOutcomes rs w2

/-! ## Product creation and order assembly

`CreateProduct.mutate` (`crm/schema.py` lines 157-173) and
`CreateOrder.mutate` (lines 182-236). -/

/-- The `OrderInput` input object (`crm/schema.py` lines 71-74): required
customer id, required product id list, optional order date. -/
structure OrderInput where
  customer_id : Nat
  product_ids : List Nat
  order_date : Option Nat
deriving DecidableEq

/-- Environment of one `CreateOrder` invocation.  `storeFailsItemWrite`
injects an `UnexpectedStoreFailure` (spec section 7: "wraps any underlying
storage error") at the `OrderItem.objects.bulk_create` call — the store is
an external collaborator whose writes may fail. -/
structure Env where
  storeFailsItemWrite : Bool
deriving DecidableEq

/-- `Customer.objects.get(id=customer_id)` (`crm/schema.py` line 185):
the first customer row with that id, if any. -/
def findCustomer (s : Store) (cid : Nat) : Option Customer :=
  s.customers.find? fun c => c.id == cid

/-- `Product.objects.get(id=prod_id)` (`crm/schema.py` line 199). -/
def findProduct (s : Store) (pid : Nat) : Option Product :=
  s.products.find? fun p => p.id == pid

/-- The `for prod_id in input.product_ids` loop of `CreateOrder.mutate`
(`crm/schema.py` lines 197-205): resolve each id in order, collecting
`selected_products`; the first id with no product row raises
`Invalid product ID: <id>` (re-raised unchanged by line 207). -/
def resolveProducts (s : Store) : List Nat → Except String (List Product)
  | [] => Except.ok []
  | pid :: rest =>
    match findProduct s pid with
    | none => Except.error ( "Invalid product ID: " ++ toString pid)
    | some p =>
      match resolveProducts s rest with
      | Except.error e => Except.error e
      | Except.ok ps => Except.ok (p :: ps)

/-- The error `CreateOrder.mutate` raises for a `None` order date:
`input.order_date or timezone.now()` (`crm/schema.py` line 213) evaluates
`timezone.now()`, but `crm/schema.py` never imports `timezone`, so the
call raises `NameError`, which line 235 catches and wraps. -/
def timezoneNameError : String :=
  "An unexpected error occurred during order creation: name 'timezone' is not defined"

/-- The wrapped error for a storage failure during
`OrderItem.objects.bulk_create` (`crm/schema.py` lines 228 and 235). -/
def itemWriteError : String :=
  "An unexpected error occurred during order creation: storage failure during bulk_create"

/-- `CreateOrder.mutate` (`crm/schema.py` lines 182-236).  Steps, in the
source's order: resolve the customer (lines 183-187); reject an empty
product list (line 194); resolve every product id, accumulating
`total_amount` as the sum of the resolved products' current prices
(lines 197-205); evaluate the order date — a `None` order date raises the
`timezone` `NameError` before any write (line 213); create the `Order`
row; create one `OrderItem` per resolved product with quantity 1 and
`price_at_order` snapshotting the product's current price (lines
217-228).  The mutation is NOT decorated with `transaction.atomic`, so
each write commits as it is issued (autocommit): when the `OrderItem`
bulk write fails, the already-committed `Order` row stays in the store. -/
def createOrder (env : Env) (input : OrderInput) (s : Store) :
    Except String Order × Store :=
  match findCustomer s input.customer_id with
  | none => (Except.error "Invalid customer ID.", s)
  | some customer =>
    if input.product_ids.isEmpty then
      (Except.error "At least one product must be selected for an order.", s)
    else
      match resolveProducts s input.product_ids with
      | Except.error e => (Except.error e, s)
      | Except.ok selected_products =>
        match input.order_date with
        | none => (Except.error timezoneNameError, s)
        | some d =>
          let total_amount : Money := (selected_products.map Product.price).sum
          let order : Order := ⟨s.orders.length, customer.id, d, total_amount⟩
          let s1 : Store := { s with orders := s.orders ++ [order] }
          if env.storeFailsItemWrite then
            (Except.error itemWriteError, s1)
          else
            let items : List OrderItem :=
              selected_products.map fun p => ⟨order.id, p.id, 1, p.price⟩
            (Except.ok order, { s1 with orderItems := s1.orderItems ++ items })

/-- Modelled from the spec: no product-price-update operation exists in
the repository's files (products are only ever created), but the spec's
section 3 invariant speaks of "later product price changes" by external
administrative action.  Such a change updates the matching `Product`
row's price field and nothing else. -/
def updateProductPrice (s : Store) (pid : Nat) (newPrice : Money) : Store :=
  { s with
    products := s.products.map fun p =>
      if p.id == pid then { p with price := newPrice } else p }

/-! ## Concrete data used by closed theorems and witnesses -/

/-- A store holding one customer (id 1) and two products: id 1 priced
1200.50 (120050 cents) and id 2 priced 25.99 (2599 cents) — the data of
the specification's worked example. -/
def sampleStore : Store :=
  ⟨[⟨1, "Alice", "alice@example.com", none⟩],
   [⟨1, "Laptop Pro", 120050, 15⟩, ⟨2, "Wireless Mouse", 2599, 100⟩],
   [], []⟩

/-- First bulk record of the duplicate-email example. -/
def recA : CustomerInput := ⟨"A", "a@x.com", none⟩

/-- Second bulk record: same email as `recA`. -/
def recA2 : CustomerInput := ⟨"A2", "a@x.com", none⟩

/-- Third bulk record: a fresh email. -/
def recB : CustomerInput := ⟨"B", "b@x.com", none⟩

/-! ## Order assembly: the atomicity and order-date claims -/

/-- Claim C1: the claim says every CreateOrder invocation is atomic — on
an exception after the Order row is persisted, all writes are rolled back
and the store is unchanged.  The code has no transaction around
`CreateOrder.mutate`: evaluated at a valid input (customer 1, product 1,
explicit date) with a storage failure injected at
`OrderItem.objects.bulk_create`, the mutation reports the wrapped error,
yet the Order row remains committed — one more order than before, no
items, a changed store. -/
theorem claim_C1_order_row_survives_item_write_failure :
    (createOrder ⟨true⟩ ⟨1, [1], some 5⟩ sampleStore).1 =
      Except.error itemWriteError ∧
    (createOrder ⟨true⟩ ⟨1, [1], some 5⟩ sampleStore).2.orders =
      [⟨0, 1, 5, 120050⟩] ∧
    (createOrder ⟨true⟩ ⟨1, [1], some 5⟩ sampleStore).2.orderItems = [] ∧
    (createOrder ⟨true⟩ ⟨1, [1], some 5⟩ sampleStore).2 ≠ sampleStore := by
  refine ⟨rfl, rfl, rfl, ?_⟩
  decide

/-- Claim C2: the claim says an otherwise-valid CreateOrder with no
orderDate succeeds with the current time.  `crm/schema.py` never imports
`timezone`, so `input.order_date or timezone.now()` raises `NameError`:
evaluated at a valid customer and product with `order_date = none`, the
mutation fails with the wrapped `NameError` and writes nothing. -/
theorem claim_C2_missing_timezone_import_fails :
    (createOrder ⟨false⟩ ⟨1, [1], none⟩ sampleStore).1 =
      Except.error timezoneNameError ∧
    (createOrder ⟨false⟩ ⟨1, [1], none⟩ sampleStore).2 = sampleStore := by
  exact ⟨rfl, rfl⟩

/-! ## Bulk customer creation: concrete runs -/

/-- Claim C6: on records `[a@x.com, a@x.com, b@x.com]` from a store with
neither email, the first and third records are created and the second is
rejected by the uniqueness check against the evolving (transaction-local)
state: exactly 2 created customers, with emails a then b in input order,
and exactly the one duplicate-email error. -/
theorem claim_C6_bulk_duplicate_email_run :
    ((bulkCreateCustomers [recA, recA2, recB] emptyStore).1.1.map
        Customer.email = ["a@x.com", "b@x.com"]) ∧
    (bulkCreateCustomers [recA, recA2, recB] emptyStore).1.1.length = 2 ∧
    (bulkCreateCustomers [recA, recA2, recB] emptyStore).1.2 =
      ["Email 'a@x.com' already exists."] := by
  exact ⟨rfl, rfl, rfl⟩

/-- Claim C5 (counterexample): both records of `[recA, recB]` pass
validation and are created (2 successes), yet the durable store seen
after record 1 has been evaluated — i.e. while record 2 is being
evaluated — still holds no customer: the write of a validated record is
NOT committed before the next record is evaluated (the batch runs under
`@transaction.atomic`, which defers the commit to the end). -/
theorem claim_C5_counterexample_commit_deferred :
    (bulkCreateCustomers [recA, recB] emptyStore).1.1.length = 2 ∧
    (bulkDurableAfter [recA, recB] emptyStore 1).customers = [] ∧
    (bulkCreateCustomers [recA, recB] emptyStore).2.customers ≠ [] := by
  refine ⟨rfl, rfl, ?_⟩
  decide

/-! ## Bulk customer creation: structural lemmas -/

/-- A successful per-record iteration appends exactly the created
customer row to the store it saw. -/
theorem processRecord_inl {w : Store} {r : CustomerInput} {c : Customer}
    {w2 : Store} (h : processRecord w r = (Sum.inl c, w2)) :
    w2.customers = w.customers ++ [c] := by
  unfold processRecord at h
  split at h
  · exact absurd (congrArg Prod.fst h) (by simp)
  · split at h
    · exact absurd (congrArg Prod.fst h) (by simp)
    · obtain ⟨h1, h2⟩ := Prod.mk.injEq .. ▸ h
      cases h1
      cases h2
      simp

/-- A failed per-record iteration leaves the store it saw unchanged. -/
theorem processRecord_inr {w : Store} {r : CustomerInput} {e : String}
    {w2 : Store} (h : processRecord w r = (Sum.inr e, w2)) : w2 = w := by
  unfold processRecord at h
  split at h
  · exact (Prod.mk.injEq .. ▸ h).2.symm ▸ rfl
  · split at h
    · exact (Prod.mk.injEq .. ▸ h).2.symm ▸ rfl
    · exact absurd (congrArg Prod.fst h) (by simp)

/-- A per-record iteration never touches the products, orders or order
items tables. -/
theorem processRecord_frame (w : Store) (r : CustomerInput) :
    (processRecord w r).2.orders = w.orders ∧
    (processRecord w r).2.orderItems = w.orderItems ∧
    (processRecord w r).2.products = w.products := by
  unfold processRecord
  split
  · exact ⟨rfl, rfl, rfl⟩
  · split
    · exact ⟨rfl, rfl, rfl⟩
    · exact ⟨rfl, rfl, rfl⟩

/-- The loop of `BulkCreateCustomers.mutate` never changes the durable
store: all its writes stay inside the open transaction. -/
theorem foldl_bulkStep_durable (recs : List CustomerInput) :
    ∀ st : BulkState, (recs.foldl bulkStep st).durable = st.durable := by
  induction recs with
  | nil => intro st; rfl
  | cons r rs ih =>
    intro st
    rw [List.foldl_cons, ih]
    rcases h : processRecord st.working r with ⟨o, w⟩
    cases o <;> simp [bulkStep, h]

/-- Customers-table invariant of the loop: the working store always holds
the entry customers followed by exactly the created ones, in order. -/
theorem foldl_bulkStep_customers (recs : List CustomerInput) :
    ∀ (st : BulkState) (base : List Customer),
      st.working.customers = base ++ st.created →
      (recs.foldl bulkStep st).working.customers =
        base ++ (recs.foldl bulkStep st).created := by
  induction recs with
  | nil => intro st base h; exact h
  | cons r rs ih =>
    intro st base h
    rw [List.foldl_cons]
    rcases hp : processRecord st.working r with ⟨o, w⟩
    cases o with
    | inl c =>
      refine ih _ base ?_
      have hw : w.customers = st.working.customers ++ [c] := processRecord_inl hp
      simp [bulkStep, hp, hw, h]
    | inr e =>
      refine ih _ base ?_
      have hw : w = st.working := processRecord_inr hp
      simp [bulkStep, hp, hw, h]

/-- Projection of a record outcome to its created customer. -/
def sumCustomer : Customer ⊕ String → Option Customer
  | Sum.inl c => some c
  | Sum.inr _ => none

/-- Projection of a record outcome to its error string. -/
def sumError : Customer ⊕ String → Option String
  | Sum.inl _ => none
  | Sum.inr e => some e

/-- The loop's accumulators are exactly the order-preserving projections
of the per-record outcome list, and there is one outcome per record. -/
theorem foldl_bulkStep_outcomes (recs : List CustomerInput) :
    ∀ st : BulkState,
      (recs.foldl bulkStep st).created =
        st.created ++ (bulkOutcomes recs st.working).filterMap sumCustomer ∧
      (recs.foldl bulkStep st).errors =
        st.errors ++ (bulkOutcomes recs st.working).filterMap sumError ∧
      (bulkOutcomes recs st.working).length = recs.length := by
  induction recs with
  | nil => intro st; exact ⟨by simp [bulkOutcomes], by simp [bulkOutcomes], rfl⟩
  | cons r rs ih =>
    intro st
    rw [List.foldl_cons]
    rcases hp : processRecord st.working r with ⟨o, w⟩
    have houts : bulkOutcomes (r :: rs) st.working = o :: bulkOutcomes rs w := by
      simp [bulkOutcomes, hp]
    cases o with
    | inl c =>
      have hst : bulkStep st r =
          { st with working := w, created := st.created ++ [c] } := by
        simp [bulkStep, hp]
      obtain ⟨ih1, ih2, ih3⟩ := ih (bulkStep st r)
      rw [hst] at ih1 ih2 ih3
      refine ⟨?_, ?_, ?_⟩
      · rw [hst, ih1, houts]
        simp [sumCustomer, List.filterMap_cons]
      · rw [hst, ih2, houts]
        simp [sumError, List.filterMap_cons]
      · rw [houts]
        simpa using ih3
    | inr e =>
      have hst : bulkStep st r =
          { st with working := w, errors := st.errors ++ [e] } := by
        simp [bulkStep, hp]
      obtain ⟨ih1, ih2, ih3⟩ := ih (bulkStep st r)
      rw [hst] at ih1 ih2 ih3
      refine ⟨?_, ?_, ?_⟩
      · rw [hst, ih1, houts]
        simp [sumCustomer, List.filterMap_cons]
      · rw [hst, ih2, houts]
        simp [sumError, List.filterMap_cons]
      · rw [houts]
        simpa using ih3

/-- Every outcome is a created customer or an error, so the two
projections partition the outcome list. -/
theorem filterMap_outcomes_length (l : List (Customer ⊕ String)) :
    (l.filterMap sumCustomer).length + (l.filterMap sumError).length =
      l.length := by
  induction l with
  | nil => rfl
  | cons o t ih =>
    cases o <;> simp [sumCustomer, sumError, List.filterMap_cons] <;> omega

/-- Claim C5 (amended): each record that passes validation is written to
the enclosing batch transaction before the next record is evaluated, but
the write becomes durable only when the whole batch returns — the durable
store is unchanged at every intermediate point.  Nevertheless a failure on
a later record never undoes an earlier success: the store committed at
return holds the original customers followed by every created customer of
the batch, in order. -/
theorem claim_C5_amended_batch_commit (recs : List CustomerInput) (s : Store) :
    (∀ i : Nat, bulkDurableAfter recs s i = s) ∧
    (bulkCreateCustomers recs s).2.customers =
      s.customers ++ (bulkCreateCustomers recs s).1.1 := by
  constructor
  · intro i
    exact foldl_bulkStep_durable (recs.take i) ⟨s, s, [], []⟩
  · exact foldl_bulkStep_customers recs ⟨s, s, [], []⟩ s.customers (by simp)

/-- Claim C10: for every input list, BulkCreateCustomers returns normally
(the embedding is a total function: every per-record exception is caught
inside the loop) with one outcome per record in input order; the created
list and the error list are the order-preserving projections of those
outcomes, and their lengths sum to the input length. -/
theorem claim_C10_bulk_partition (recs : List CustomerInput) (s : Store) :
    (bulkOutcomes recs s).length = recs.length ∧
    (bulkCreateCustomers recs s).1.1 =
      (bulkOutcomes recs s).filterMap sumCustomer ∧
    (bulkCreateCustomers recs s).1.2 =
      (bulkOutcomes recs s).filterMap sumError ∧
    (bulkCreateCustomers recs s).1.1.length +
      (bulkCreateCustomers recs s).1.2.length = recs.length := by
  obtain ⟨h1, h2, h3⟩ := foldl_bulkStep_outcomes recs ⟨s, s, [], []⟩
  refine ⟨h3, by simpa using h1, by simpa using h2, ?_⟩
  have := filterMap_outcomes_length (bulkOutcomes recs s)
  simp only [bulkCreateCustomers, bulkRun]
  simp only [bulkRun] at h1 h2
  rw [h1, h2]
  simpa using h3 ▸ this

/-! ## Order assembly: structural lemmas -/

/-- When some requested product id has no product row, the resolve loop
raises `Invalid product ID` for such an id (the first bad one it meets)
and resolves nothing. -/
theorem resolveProducts_err (s : Store) :
    ∀ pids : List Nat, (∃ pid ∈ pids, findProduct s pid = none) →
      ∃ pid ∈ pids, findProduct s pid = none ∧
        resolveProducts s pids =
          Except.error ( "Invalid product ID: " ++ toString pid) := by
  intro pids
  induction pids with
  | nil => rintro ⟨pid, hmem, _⟩; exact absurd hmem (List.not_mem_nil pid)
  | cons p rest ih =>
    rintro ⟨pid, hmem, hnone⟩
    rcases hp : findProduct s p with _ | q
    · exact ⟨p, List.mem_cons_self p rest, hp, by simp [resolveProducts, hp]⟩
    · rcases List.mem_cons.mp hmem with rfl | hmem2
      · rw [hp] at hnone; cases hnone
      · obtain ⟨pid2, hmem3, hnone2, herr⟩ := ih ⟨pid, hmem2, hnone⟩
        exact ⟨pid2, List.mem_cons_of_mem p hmem3, hnone2,
          by simp [resolveProducts, hp, herr]⟩

/-- Claim C3 (amended): a CreateOrder invocation whose customer reference
resolves and at least one of whose product ids does not resolve fails with
`Invalid product ID` (naming an unresolvable id) and leaves the store
unchanged: zero Order rows and zero OrderItem rows are persisted. -/
theorem claim_C3_amended_invalid_product (env : Env) (input : OrderInput)
    (s : Store) (c : Customer)
    (hc : findCustomer s input.customer_id = some c)
    (hbad : ∃ pid ∈ input.product_ids, findProduct s pid = none) :
    (createOrder env input s).2 = s ∧
    ∃ pid ∈ input.product_ids, findProduct s pid = none ∧
      (createOrder env input s).1 =
        Except.error ( "Invalid product ID: " ++ toString pid) := by
  obtain ⟨pid, hmem, hnone, herr⟩ := resolveProducts_err s input.product_ids hbad
  have hne : input.product_ids.isEmpty = false := by
    cases h : input.product_ids with
    | nil => rw [h] at hmem; exact absurd hmem (List.not_mem_nil pid)
    | cons a t => rfl
  refine ⟨?_, pid, hmem, hnone, ?_⟩ <;> simp [createOrder, hc, hne, herr]

/-- Claim C3 (counterexample): the claim as stated quantifies over every
invocation with an unresolvable product id.  At customer id 99 (absent)
and product id 77 (absent) the code fails with `Invalid customer ID.` —
the customer check runs first — not with the InvalidProduct failure the
claim requires for every such invocation. -/
theorem claim_C3_counterexample_customer_checked_first :
    (createOrder ⟨false⟩ ⟨99, [77], some 0⟩ sampleStore).1 =
      Except.error "Invalid customer ID." ∧
    findProduct sampleStore 77 = none ∧
    "Invalid customer ID." ≠ "Invalid product ID: " ++ toString 77 := by
  refine ⟨rfl, rfl, ?_⟩
  decide

/-- Claim C3 (witness): the amended theorem applied at customer 1 (which
resolves) and product ids [1, 77], of which 77 does not resolve. -/
theorem claim_C3_witness :
    (createOrder ⟨false⟩ ⟨1, [1, 77], some 0⟩ sampleStore).2 = sampleStore ∧
    ∃ pid ∈ ([1, 77] : List Nat), findProduct sampleStore pid = none ∧
      (createOrder ⟨false⟩ ⟨1, [1, 77], some 0⟩ sampleStore).1 =
        Except.error ( "Invalid product ID: " ++ toString pid) :=
  claim_C3_amended_invalid_product ⟨false⟩ ⟨1, [1, 77], some 0⟩ sampleStore
    ⟨1, "Alice", "alice@example.com", none⟩ rfl ⟨77, by decide, rfl⟩

/-- Claim C9 (amended): a CreateOrder invocation whose customer reference
resolves and whose product list is empty fails with the
NoProductsSelected error and creates no Order row (store unchanged). -/
theorem claim_C9_amended_empty_products (env : Env) (input : OrderInput)
    (s : Store) (c : Customer)
    (hc : findCustomer s input.customer_id = some c)
    (he : input.product_ids = []) :
    (createOrder env input s).1 =
      Except.error "At least one product must be selected for an order." ∧
    (createOrder env input s).2 = s := by
  constructor <;> simp [createOrder, hc, he]

/-- Claim C9 (counterexample): the claim as stated says an empty product
list always fails with NoProductsSelected regardless of the other inputs;
with an unresolvable customer (id 99) and an empty product list the code
fails with `Invalid customer ID.` instead (still writing nothing). -/
theorem claim_C9_counterexample_invalid_customer_first :
    (createOrder ⟨false⟩ ⟨99, [], some 0⟩ sampleStore).1 =
      Except.error "Invalid customer ID." ∧
    (createOrder ⟨false⟩ ⟨99, [], some 0⟩ sampleStore).2 = sampleStore ∧
    "Invalid customer ID." ≠
      "At least one product must be selected for an order." := by
  refine ⟨rfl, rfl, ?_⟩
  decide

/-- Claim C9 (witness): the amended theorem applied at the resolvable
customer 1 with an empty product list. -/
theorem claim_C9_witness :
    (createOrder ⟨false⟩ ⟨1, [], some 0⟩ sampleStore).1 =
      Except.error "At least one product must be selected for an order." ∧
    (createOrder ⟨false⟩ ⟨1, [], some 0⟩ sampleStore).2 = sampleStore :=
  claim_C9_amended_empty_products ⟨false⟩ ⟨1, [], some 0⟩ sampleStore
    ⟨1, "Alice", "alice@example.com", none⟩ rfl rfl

/-- Claim C4: a successful CreateOrder for a resolvable customer and the
two products priced 1200.50 and 25.99 (120050 and 2599 cents) persists an
Order whose total_amount is exactly 1226.49 (122649 cents) — the sum of
the resolved products' current prices — and exactly two OrderItems whose
price_at_order snapshots are 1200.50 and 25.99 respectively. -/
theorem claim_C4_total_and_snapshots (env : Env) (input : OrderInput)
    (s : Store) (c : Customer) (P1 P2 : Product) (pid1 pid2 d : Nat)
    (hc : findCustomer s input.customer_id = some c)
    (hids : input.product_ids = [pid1, pid2])
    (h1 : findProduct s pid1 = some P1) (hp1 : P1.price = 120050)
    (h2 : findProduct s pid2 = some P2) (hp2 : P2.price = 2599)
    (hd : input.order_date = some d)
    (hf : env.storeFailsItemWrite = false) :
    ∃ o : Order, (createOrder env input s).1 = Except.ok o ∧
      o.total_amount = 122649 ∧
      (createOrder env input s).2.orderItems =
        s.orderItems ++ [⟨o.id, pid1, 1, 120050⟩, ⟨o.id, pid2, 1, 2599⟩] := by
  have hid1 : P1.id = pid1 := by simpa using List.find?_some h1
  have hid2 : P2.id = pid2 := by simpa using List.find?_some h2
  have hne : input.product_ids.isEmpty = false := by rw [hids]; rfl
  have hres : resolveProducts s input.product_ids = Except.ok [P1, P2] := by
    rw [hids]; simp [resolveProducts, h1, h2]
  refine ⟨⟨s.orders.length, c.id, d, 122649⟩, ?_, rfl, ?_⟩
  · simp [createOrder, hc, hne, hres, hd, hf, hp1, hp2]
  · simp [createOrder, hc, hne, hres, hd, hf, hp1, hp2, hid1, hid2]

/-- Claim C4 (witness): the theorem applied at `sampleStore` with its two
products. -/
theorem claim_C4_witness :
    ∃ o : Order,
      (createOrder ⟨false⟩ ⟨1, [1, 2], some 7⟩ sampleStore).1 = Except.ok o ∧
      o.total_amount = 122649 ∧
      (createOrder ⟨false⟩ ⟨1, [1, 2], some 7⟩ sampleStore).2.orderItems =
        sampleStore.orderItems ++ [⟨o.id, 1, 1, 120050⟩, ⟨o.id, 2, 1, 2599⟩] :=
  claim_C4_total_and_snapshots ⟨false⟩ ⟨1, [1, 2], some 7⟩ sampleStore
    ⟨1, "Alice", "alice@example.com", none⟩ ⟨1, "Laptop Pro", 120050, 15⟩
    ⟨2, "Wireless Mouse", 2599, 100⟩ 1 2 7 rfl rfl rfl rfl rfl rfl rfl rfl

/-! ## Frame lemmas: no operation rewrites existing order rows -/

/-- Whatever branch `CreateOrder.mutate` takes, the orders and order-items
tables only ever grow at the end: every pre-existing row survives
unchanged. -/
theorem createOrder_frame (env : Env) (input : OrderInput) (s : Store) :
    ∃ (no : List Order) (ni : List OrderItem),
      (createOrder env input s).2.orders = s.orders ++ no ∧
      (createOrder env input s).2.orderItems = s.orderItems ++ ni := by
  cases hc : findCustomer s input.customer_id with
  | none =>
    exact ⟨[], [], by simp [createOrder, hc], by simp [createOrder, hc]⟩
  | some c =>
    cases hne : input.product_ids.isEmpty with
    | true =>
      exact ⟨[], [], by simp [createOrder, hc, hne],
        by simp [createOrder, hc, hne]⟩
    | false =>
      cases hr : resolveProducts s input.product_ids with
      | error e =>
        exact ⟨[], [], by simp [createOrder, hc, hne, hr],
          by simp [createOrder, hc, hne, hr]⟩
      | ok prods =>
        cases hd : input.order_date with
        | none =>
          exact ⟨[], [], by simp [createOrder, hc, hne, hr, hd],
            by simp [createOrder, hc, hne, hr, hd]⟩
        | some d =>
          cases hf : env.storeFailsItemWrite with
          | true =>
            refine ⟨[⟨s.orders.length, c.id, d,
              (prods.map Product.price).sum⟩], [], ?_, ?_⟩ <;>
              simp [createOrder, hc, hne, hr, hd, hf]
          | false =>
            refine ⟨[⟨s.orders.length, c.id, d,
              (prods.map Product.price).sum⟩],
              prods.map fun p => ⟨s.orders.length, p.id, 1, p.price⟩,
              ?_, ?_⟩ <;>
              simp [createOrder, hc, hne, hr, hd, hf]

/-- The bulk-customer loop never touches the orders or order-items
tables of its working store. -/
theorem foldl_bulkStep_store_frame (recs : List CustomerInput) :
    ∀ st : BulkState,
      (recs.foldl bulkStep st).working.orders = st.working.orders ∧
      (recs.foldl bulkStep st).working.orderItems = st.working.orderItems := by
  induction recs with
  | nil => intro st; exact ⟨rfl, rfl⟩
  | cons r rs ih =>
    intro st
    rw [List.foldl_cons]
    have hf := processRecord_frame st.working r
    rcases hp : processRecord st.working r with ⟨o, w⟩
    rw [hp] at hf
    have hw : (bulkStep st r).working = w := by
      cases o <;> simp [bulkStep, hp]
    obtain ⟨i1, i2⟩ := ih (bulkStep st r)
    rw [hw] at i1 i2
    exact ⟨i1.trans hf.1, i2.trans hf.2.1⟩

/-- `CreateCustomer.mutate` never touches the orders or order-items
tables. -/
theorem createCustomer_frame (input : CustomerInput) (s : Store) :
    (createCustomer input s).2.orders = s.orders ∧
    (createCustomer input s).2.orderItems = s.orderItems := by
  unfold createCustomer
  split
  · exact ⟨rfl, rfl⟩
  · split
    · exact ⟨rfl, rfl⟩
    · exact ⟨rfl, rfl⟩

/-- Claim C8: `price_at_order` is a stored snapshot, not a live
reference.  An external product price change rewrites only the products
table — every persisted OrderItem (hence its price_at_order) and every
persisted Order (hence its total_amount) is identical before and after —
and no operation of the schema rewrites an existing order row: CreateOrder
only appends to the orders and order-items tables, and the customer
mutations leave both tables exactly as they were. -/
theorem claim_C8_price_snapshot_immutable :
    (∀ (s : Store) (pid : Nat) (q : Money),
      (updateProductPrice s pid q).orderItems = s.orderItems ∧
      (updateProductPrice s pid q).orders = s.orders) ∧
    (∀ (env : Env) (input : OrderInput) (s : Store),
      ∃ (no : List Order) (ni : List OrderItem),
        (createOrder env input s).2.orders = s.orders ++ no ∧
        (createOrder env input s).2.orderItems = s.orderItems ++ ni) ∧
    (∀ (recs : List CustomerInput) (s : Store),
      (bulkCreateCustomers recs s).2.orders = s.orders ∧
      (bulkCreateCustomers recs s).2.orderItems = s.orderItems) ∧
    (∀ (input : CustomerInput) (s : Store),
      (createCustomer input s).2.orders = s.orders ∧
      (createCustomer input s).2.orderItems = s.orderItems) := by
  refine ⟨fun s pid q => ⟨rfl, rfl⟩, createOrder_frame,
    fun recs s => ?_, createCustomer_frame⟩
  exact foldl_bulkStep_store_frame recs ⟨s, s, [], []⟩

/-! ## Phone validation: the regex language, characterized -/

/-- A list passes the `\+?` segment test iff it is empty or `['+']`. -/
theorem plusSeg_iff (p : List Char) : plusSeg p = true ↔ SegPlus p := by
  match p with
  | [] => simp [plusSeg, SegPlus]
  | [c] => simp [plusSeg, SegPlus]
  | c1 :: c2 :: r => simp [plusSeg, SegPlus]

/-- A list passes the `[-.\s]?` segment test iff it is empty or one
separator character. -/
theorem sepSeg_iff (x : List Char) : sepSeg x = true ↔ SegSep x := by
  match x with
  | [] => simp [sepSeg, SegSep]
  | [c] => simp [sepSeg, SegSep]
  | c1 :: c2 :: r => simp [sepSeg, SegSep]

/-- A list passes the end-of-match segment test iff it is empty or — with
`nl` set — one final newline. -/
theorem tailSeg_iff (nl : Bool) (t : List Char) :
    tailSeg nl t = true ↔ SegTail nl t := by
  match t with
  | [] => simp [tailSeg, SegTail]
  | [c] => simp [tailSeg, SegTail, Bool.and_eq_true]
  | c1 :: c2 :: r => simp [tailSeg, SegTail]

/-- The executable matcher accepts exactly the declarative language: a
string matches the phone pattern iff it decomposes into the pattern's
seven segments. -/
theorem phoneRegexMatch_iff (nl : Bool) (l : List Char) :
    phoneRegexMatch nl l = true ↔ PhoneDecomp nl l := by
  constructor
  · intro h
    simp only [phoneRegexMatch, List.any_eq_true, List.mem_range] at h
    obtain ⟨a, ha, i1, hi1, s1, hs1, i2, hi2, s2, hs2, i3, hi3, hsc⟩ := h
    simp only [splitCheck, Bool.and_eq_true, beq_iff_eq] at hsc
    obtain ⟨⟨⟨⟨⟨⟨⟨⟨⟨⟨⟨⟨q1, q2⟩, q3⟩, q4⟩, q5⟩, q6⟩, b1⟩, b2⟩, b3⟩, b4⟩,
      b5⟩, b6⟩, b7⟩ := hsc
    simp only [PhoneDecomp]
    refine ⟨l.take a, (l.drop a).take (i1 + 1),
      ((l.drop a).drop (i1 + 1)).take s1,
      (((l.drop a).drop (i1 + 1)).drop s1).take (i2 + 1),
      ((((l.drop a).drop (i1 + 1)).drop s1).drop (i2 + 1)).take s2,
      (((((l.drop a).drop (i1 + 1)).drop s1).drop (i2 + 1)).drop s2).take
        (i3 + 1),
      (((((l.drop a).drop (i1 + 1)).drop s1).drop (i2 + 1)).drop s2).drop
        (i3 + 1),
      ?_, ?_, ?_, ?_, ?_, ?_, ?_, ?_⟩
    · rw [← List.take_append_drop a l]
      rw [← List.take_append_drop (i1 + 1) (l.drop a)]
      rw [← List.take_append_drop s1 ((l.drop a).drop (i1 + 1))]
      rw [← List.take_append_drop (i2 + 1) (((l.drop a).drop (i1 + 1)).drop s1)]
      rw [← List.take_append_drop s2
        ((((l.drop a).drop (i1 + 1)).drop s1).drop (i2 + 1))]
      rw [← List.take_append_drop (i3 + 1)
        (((((l.drop a).drop (i1 + 1)).drop s1).drop (i2 + 1)).drop s2)]
      simp
    · exact (plusSeg_iff _).mp b1
    · exact ⟨by omega, by omega, b2⟩
    · exact (sepSeg_iff _).mp b3
    · exact ⟨by omega, by omega, b4⟩
    · exact (sepSeg_iff _).mp b5
    · exact ⟨by omega, by omega, b6⟩
    · exact (tailSeg_iff nl _).mp b7
  · intro hd
    simp only [PhoneDecomp] at hd
    obtain ⟨p, g1, x1, g2, x2, g3, t, rfl, hp, hg1, hx1, hg2, hx2, hg3, ht⟩ := hd
    simp only [SegDigits] at hg1 hg2 hg3
    obtain ⟨hg1a, hg1b, hg1c⟩ := hg1
    obtain ⟨hg2a, hg2b, hg2c⟩ := hg2
    obtain ⟨hg3a, hg3b, hg3c⟩ := hg3
    have hpb : plusSeg p = true := (plusSeg_iff p).mpr hp
    have hx1b : sepSeg x1 = true := (sepSeg_iff x1).mpr hx1
    have hx2b : sepSeg x2 = true := (sepSeg_iff x2).mpr hx2
    have htb : tailSeg nl t = true := (tailSeg_iff nl t).mpr ht
    have hpl : p.length < 2 := by
      simp only [SegPlus] at hp
      rcases hp with rfl | rfl <;> simp
    have hxl1 : x1.length < 2 := by
      simp only [SegSep] at hx1
      rcases hx1 with rfl | ⟨c, -, rfl⟩ <;> simp
    have hxl2 : x2.length < 2 := by
      simp only [SegSep] at hx2
      rcases hx2 with rfl | ⟨c, -, rfl⟩ <;> simp
    simp only [phoneRegexMatch, List.any_eq_true, List.mem_range]
    refine ⟨p.length, hpl, g1.length - 1, by omega, x1.length, hxl1,
      g2.length - 1, by omega, x2.length, hxl2, g3.length - 1, by omega, ?_⟩
    have hd1 : g1.length - 1 + 1 = g1.length := by omega
    have hd2 : g2.length - 1 + 1 = g2.length := by omega
    have hd3 : g3.length - 1 + 1 = g3.length := by omega
    rw [hd1, hd2, hd3]
    simp only [splitCheck]
    simp [hpb, hg1c, hx1b, hg2c, hx2b, hg3c, htb, digitsSeg]

/-- Python's `$` splits the matched language into the strict-end language
and its one-trailing-newline variant. -/
theorem phoneDecomp_newline_split (l : List Char) :
    PhoneDecomp true l ↔
      PhoneDecomp false l ∨
        ∃ l2, l = l2 ++ ['\n'] ∧ PhoneDecomp false l2 := by
  constructor
  · intro hd
    simp only [PhoneDecomp] at hd ⊢
    obtain ⟨p, g1, x1, g2, x2, g3, t, rfl, hp, hg1, hx1, hg2, hx2, hg3, ht⟩ := hd
    simp only [SegTail] at ht
    rcases ht with rfl | ⟨-, rfl⟩
    · exact Or.inl
        ⟨p, g1, x1, g2, x2, g3, [], rfl, hp, hg1, hx1, hg2, hx2, hg3,
          Or.inl rfl⟩
    · refine Or.inr ⟨p ++ (g1 ++ (x1 ++ (g2 ++ (x2 ++ g3)))), ?_,
        p, g1, x1, g2, x2, g3, [], by simp, hp, hg1, hx1, hg2, hx2, hg3,
        Or.inl rfl⟩
      simp [List.append_assoc]
  · intro hd
    rcases hd with hd | ⟨l2, rfl, hd⟩
    · simp only [PhoneDecomp] at hd ⊢
      obtain ⟨p, g1, x1, g2, x2, g3, t, rfl, hp, hg1, hx1, hg2, hx2, hg3, ht⟩ :=
        hd
      simp only [SegTail] at ht
      rcases ht with rfl | ⟨hfalse, -⟩
      · exact ⟨p, g1, x1, g2, x2, g3, [], rfl, hp, hg1, hx1, hg2, hx2, hg3,
          Or.inl rfl⟩
      · simp at hfalse
    · simp only [PhoneDecomp] at hd ⊢
      obtain ⟨p, g1, x1, g2, x2, g3, t, rfl, hp, hg1, hx1, hg2, hx2, hg3, ht⟩ :=
        hd
      simp only [SegTail] at ht
      rcases ht with rfl | ⟨hfalse, -⟩
      · exact ⟨p, g1, x1, g2, x2, g3, ['\n'], by simp, hp, hg1, hx1, hg2,
          hx2, hg3, Or.inr ⟨rfl, rfl⟩⟩
      · simp at hfalse

/-- Claim C7 (counterexample): the claim says the validator accepts
exactly the optional-plus grouped-digit strings.  But Python's `$` also
matches just before a newline that ends the string, so the validator
accepts "123-456-7890\n", which is not of the claimed form (no
decomposition into the claimed segments exists for it). -/
theorem claim_C7_counterexample_trailing_newline :
    phoneOk (some "123-456-7890\n") = true ∧
    ¬ PhoneDecomp false ( "123-456-7890\n").data := by
  constructor
  · decide
  · intro h
    have h2 := (phoneRegexMatch_iff false ( "123-456-7890\n").data).mpr h
    exact absurd h2 (by decide)

/-- Claim C7 (amended): the customer mutations reject a phone with the
InvalidFormat error exactly when the phone check fails; an absent or
empty phone is always accepted; and a non-empty phone is accepted exactly
when it consists of an optional leading `+` followed by digit groups of
1-4, 1-4 and 1-9 digits with at most one separator (`-`, `.` or
whitespace) between adjacent groups — or such a string followed by one
trailing newline, which Python's `$` also accepts. -/
theorem claim_C7_amended_phone_language :
    (∀ (input : CustomerInput) (s : Store),
      ((createCustomer input s).1 = Except.error phoneFormatError ↔
        phoneOk input.phone = false)) ∧
    phoneOk none = true ∧
    phoneOk (some "") = true ∧
    (∀ s2 : String, s2 ≠ "" →
      (phoneOk (some s2) = true ↔ phoneRegexMatch true s2.data = true)) ∧
    (∀ l : List Char,
      phoneRegexMatch true l = true ↔
        PhoneDecomp false l ∨ ∃ l2, l = l2 ++ ['\n'] ∧ PhoneDecomp false l2) := by
  refine ⟨?_, rfl, rfl, ?_, ?_⟩
  · intro input s
    cases hpt : phoneOk input.phone with
    | false => simp [createCustomer, hpt]
    | true =>
      cases he : emailExists s input.email with
      | false => simp [createCustomer, hpt, he]
      | true =>
        have hmsg : "Email address already exists." ≠ phoneFormatError := by
          decide
        simp [createCustomer, hpt, he, hmsg]
  · intro s2 hs
    have hne : s2.isEmpty = false := by
      cases hb : s2.isEmpty
      · rfl
      · exact absurd (by simpa [String.isEmpty_iff] using hb) hs
    simp [phoneOk, hne]
  · intro l
    exact (phoneRegexMatch_iff true l).trans (phoneDecomp_newline_split l)
